import Mathlib

/-!
Verification of pg_auto_failover keeper-side behavior claims against a
shallow embedding of the C sources.

C strings are modelled as `List Char` (NUL-free character sequences).
File IO and memory-allocation failures are not modelled: the embeddings
follow the success path of each function. External calls (config file
reads, monitor RPCs, PID file reads) become explicit boolean or `Option`
parameters; the control flow around them is translated from the source.
-/

set_option maxRecDepth 10000

/-- C strings modelled as NUL-free character sequences. -/
abbrev Str := List Char

/-! ## pghba.c : pg_hba.conf editing (src/bin/pg_autoctl/pghba.c) -/

/-- Model of C `strstr`: index of the first occurrence of `pat` in the
haystack, or `none` when `pat` does not occur. -/
def strstr : Str → Str → Option Nat
  | s, pat =>
    if pat.isPrefixOf s then some 0
    else
      match s with
      | [] => none
      | _ :: tail => (strstr tail pat).map (· + 1)

/-- The duplicate check of `pghba_ensure_host_rule_exists`: the first
`strstr` occurrence of `line` in `contents` exists and either starts the
file (`includeLine == currentHbaContents`) or follows a newline
(`includeLine[-1] == '\n'`). -/
def foundAtLineStart (contents line : Str) : Bool :=
  match strstr contents line with
  | none => false
  | some 0 => true
  | some (i + 1) => contents.getD i ' ' == '\n'

/-- Modelled from the spec: the `SKIP_HBA` macro of pghba.h is not under
src/; per the source comment in pghba.c, the authentication method is the
literal string `skip` when `--skip-pg-hba` was used. -/
def SKIP_HBA (authenticationScheme : Str) : Bool :=
  authenticationScheme == "skip".data

/-- The `HBADatabaseType` enum of pghba.h, as used by pghba.c. -/
inductive HBADatabaseType
  | HBA_DATABASE_ALL
  | HBA_DATABASE_REPLICATION
  | HBA_DATABASE_DBNAME
  deriving DecidableEq

/-- Modelled from the spec: the `IPType` enum of ipaddr.h is not under
src/; `ip_address_type` classifies a host string as IPv4, IPv6 or neither.
The classification itself is kept abstract: functions below take the
classification of the host as an explicit argument. -/
inductive IPType
  | IPTYPE_V4
  | IPTYPE_V6
  | IPTYPE_NONE
  deriving DecidableEq

/-- The character-by-character loop of `escape_hba_string`: every
double-quote is doubled, other characters are copied. -/
def escape_hba_string_loop : Str → Str
  | [] => []
  | c :: rest =>
    if c = '"' then '"' :: c :: escape_hba_string_loop rest
    else c :: escape_hba_string_loop rest

/-- `escape_hba_string` writes an opening double-quote, the input with
every double-quote doubled, and a closing double-quote. The C function's
return value is the number of characters written, i.e. the length of this
result (the terminating NUL is not counted nor modelled). -/
def escape_hba_string (hbaString : Str) : Str :=
  '"' :: escape_hba_string_loop hbaString ++ ['"']

/-- `append_database_field` writes the HBA database field: `all`,
`replication`, or the database name in quoted (escaped) form. -/
def append_database_field : HBADatabaseType → Str → Str
  | .HBA_DATABASE_ALL, _ => "all".data
  | .HBA_DATABASE_REPLICATION, _ => "replication".data
  | .HBA_DATABASE_DBNAME, databaseName => escape_hba_string databaseName

/-- `append_hostname_or_cidr` writes `host/32` for an IPv4 address,
`host/128` for an IPv6 address, and the bare host string otherwise.
`ipt` stands for `ip_address_type(host)`. -/
def append_hostname_or_cidr (ipt : IPType) (host : Str) : Str :=
  match ipt with
  | .IPTYPE_V4 => host ++ "/32".data
  | .IPTYPE_V6 => host ++ "/128".data
  | .IPTYPE_NONE => host

/-- The username field of an HBA rule: escaped username followed by a
space when a username is given (non-NULL), `all ` otherwise. -/
def hba_username_field : Option Str → Str
  | some username => escape_hba_string username ++ " ".data
  | none => "all ".data

/-- `pghba_append_rule_to_buffer` builds one HBA rule line (without
trailing comment or newline): host type, database field, username field,
address, authentication scheme, space separated. -/
def pghba_append_rule_to_buffer (ssl : Bool) (databaseType : HBADatabaseType)
    (database : Str) (username : Option Str) (ipt : IPType) (host : Str)
    (authenticationScheme : Str) : Str :=
  (if ssl then "hostssl ".data else "host ".data) ++
    (append_database_field databaseType database ++ " ".data ++
      (hba_username_field username ++
        (append_hostname_or_cidr ipt host ++
          (" ".data ++ authenticationScheme))))

/-- The `HBA_LINE_COMMENT` macro of pghba.c. -/
def HBA_LINE_COMMENT : Str := " # Auto-generated by pg_auto_failover".data

/-- Result of an HBA-file editing operation: the resulting file contents,
whether `write_file` was invoked, and the boolean return value. -/
structure EnsureResult where
  contents : Str
  wrote : Bool
  ok : Bool
  deriving DecidableEq

/-- `pghba_ensure_host_rule_exists` on the pure file contents: build the
rule line; if its first occurrence in the file starts a line, skip; if the
authentication scheme is the skip marker, warn and skip; otherwise append
the line suffixed with the auto-generated comment and a newline, and write
the file. -/
def pghba_ensure_host_rule_exists (contents : Str) (ssl : Bool)
    (databaseType : HBADatabaseType) (database : Str) (username : Option Str)
    (ipt : IPType) (host : Str) (authenticationScheme : Str) : EnsureResult :=
  let hbaLine := pghba_append_rule_to_buffer ssl databaseType database
    username ipt host authenticationScheme
  if foundAtLineStart contents hbaLine then
    { contents := contents, wrote := false, ok := true }
  else if SKIP_HBA authenticationScheme then
    { contents := contents, wrote := false, ok := true }
  else
    { contents := contents ++ hbaLine ++ HBA_LINE_COMMENT ++ ['\n'],
      wrote := true, ok := true }

/-- The `NodeAddress` struct (nodeId, host, port) as used by
`pghba_ensure_host_rules_exist`. -/
structure NodeAddress where
  nodeId : Int
  host : Str
  port : Int
  deriving DecidableEq

/-- `pghba_ensure_host_rules_exist` on the pure file contents: start from
the current contents; for each node build the `replication` rule line and
the database rule line; append each line (with comment and newline) unless
its first occurrence in the ORIGINAL contents starts a line or the
authentication scheme is the skip marker; finally write the result. Each
node's host classification (`ip_address_type`) is paired with the node. -/
def pghba_ensure_host_rules_exist (contents : Str)
    (nodesArray : List (NodeAddress × IPType)) (ssl : Bool) (database : Str)
    (username : Option Str) (authenticationScheme : Str) : Str :=
  nodesArray.foldl
    (fun newHbaContents node =>
      let hbaLineReplication := pghba_append_rule_to_buffer ssl
        .HBA_DATABASE_REPLICATION [] username node.2 node.1.host
        authenticationScheme
      let hbaLineDatabase := pghba_append_rule_to_buffer ssl
        .HBA_DATABASE_DBNAME database username node.2 node.1.host
        authenticationScheme
      [hbaLineReplication, hbaLineDatabase].foldl
        (fun acc hbaLine =>
          if foundAtLineStart contents hbaLine then acc
          else if SKIP_HBA authenticationScheme then acc
          else acc ++ hbaLine ++ HBA_LINE_COMMENT ++ ['\n'])
        newHbaContents)
    contents

/-- Specification-side description of what one rule line contributes to
the file in `pghba_ensure_host_rules_exist`: nothing when already present
at a line start or when HBA edits are skipped, otherwise the line suffixed
with the auto-generated comment and a newline. -/
def hba_rule_segment (contents authenticationScheme hbaLine : Str) : Str :=
  if foundAtLineStart contents hbaLine then []
  else if SKIP_HBA authenticationScheme then []
  else hbaLine ++ HBA_LINE_COMMENT ++ ['\n']

/-! ## Exit codes and signals -/

/-- Modelled from the spec: defaults.h is not under src/; the numeric exit
codes come from the spec's exit-code table. `0` quit/ok. -/
def EXIT_CODE_QUIT : Nat := 0

/-- Modelled from the spec: exit code `11`, bad arguments. -/
def EXIT_CODE_BAD_ARGS : Nat := 11

/-- Modelled from the spec: exit code `12`, bad configuration. -/
def EXIT_CODE_BAD_CONFIG : Nat := 12

/-- Modelled from the spec: exit code `13`, bad state. -/
def EXIT_CODE_BAD_STATE : Nat := 13

/-- Modelled from the spec: exit code `14`, pg_ctl failure. -/
def EXIT_CODE_PGCTL : Nat := 14

/-- Modelled from the spec: exit code `15`, pgsql failure. -/
def EXIT_CODE_PGSQL : Nat := 15

/-- Modelled from the spec: exit code `16`, monitor failure. -/
def EXIT_CODE_MONITOR : Nat := 16

/-- Modelled from the spec: exit code `17`, internal error. -/
def EXIT_CODE_INTERNAL_ERROR : Nat := 17

/-! ## cli_service.c : `pg_autoctl stop` (src/bin/pg_autoctl/cli_service.c) -/

/-- The three shutdown signals `cli_service_stop` may send. -/
inductive StopSignal
  | SIGTERM
  | SIGINT
  | SIGQUIT
  deriving DecidableEq

/-- The mode options recognized by `cli_getopt_pgdata_and_mode` that
affect the stop signal (`--fast` and `--immediate`); the other options
(--pgdata, --verbose, ...) do not touch `stop_signal`. -/
inductive StopFlag
  | fast
  | immediate
  deriving DecidableEq

/-- The getopt loop of `cli_getopt_pgdata_and_mode` restricted to the
`stop_signal` state: `stop_signal` starts as SIGTERM; `--fast` switches it
to SIGINT and `--immediate` to SIGQUIT, but each first checks that
`stop_signal` is still SIGTERM and otherwise exits with bad-args. -/
def cli_getopt_mode_loop : StopSignal → List StopFlag → Except Nat StopSignal
  | sig, [] => .ok sig
  | sig, .fast :: rest =>
    if sig ≠ .SIGTERM then .error EXIT_CODE_BAD_ARGS
    else cli_getopt_mode_loop .SIGINT rest
  | sig, .immediate :: rest =>
    if sig ≠ .SIGTERM then .error EXIT_CODE_BAD_ARGS
    else cli_getopt_mode_loop .SIGQUIT rest

/-- `cli_getopt_pgdata_and_mode` on the mode flags, starting from the
initial `stop_signal = SIGTERM`. -/
def cli_getopt_pgdata_and_mode (flags : List StopFlag) : Except Nat StopSignal :=
  cli_getopt_mode_loop .SIGTERM flags

/-- Outcome of the `pg_autoctl stop` command: exited during option
parsing before sending any signal, sent `kill(pid, sig)`, or failed to
read the PID file (logged fatal, no signal sent). -/
inductive StopOutcome
  | exited (code : Nat)
  | signaled (pid : Int) (sig : StopSignal)
  | noPidFile
  deriving DecidableEq

/-- The `pg_autoctl stop` command: option parsing via
`cli_getopt_pgdata_and_mode`, then `cli_service_stop` reads the PID file
and sends `stop_signal` to that PID. -/
def cli_service_stop (flags : List StopFlag) (pidFromFile : Option Int) :
    StopOutcome :=
  match cli_getopt_pgdata_and_mode flags with
  | .error code => .exited code
  | .ok sig =>
    match pidFromFile with
    | some pid => .signaled pid sig
    | none => .noPidFile

/-! ## cli_do_monitor.c : `pg_autoctl do monitor` commands -/

/-- Outcome of a `do monitor` command: the process exited with a code, or
it printed its result in JSON form, or in plain text form. -/
inductive CmdOutcome
  | exited (code : Nat)
  | printedJSON
  | printedText
  deriving DecidableEq

/-- `cli_do_monitor_get_primary_node`: read the keeper config (exit 12 on
failure), init the monitor (exit 12), call `monitor_get_primary` (exit 16
on failure), then print JSON when `outputJSON` is set, else plain text. -/
def cli_do_monitor_get_primary_node (configOk monitorInitOk rpcOk
    outputJSON : Bool) : CmdOutcome :=
  if !configOk then .exited EXIT_CODE_BAD_CONFIG
  else if !monitorInitOk then .exited EXIT_CODE_BAD_CONFIG
  else if !rpcOk then .exited EXIT_CODE_MONITOR
  else if outputJSON then .printedJSON
  else .printedText

/-- `cli_do_monitor_get_other_nodes`: config (12), monitor init (12),
then depending on `outputJSON` call the JSON or text printing RPC, either
exiting 16 on failure. -/
def cli_do_monitor_get_other_nodes (configOk monitorInitOk rpcOk
    outputJSON : Bool) : CmdOutcome :=
  if !configOk then .exited EXIT_CODE_BAD_CONFIG
  else if !monitorInitOk then .exited EXIT_CODE_BAD_CONFIG
  else if outputJSON then
    if !rpcOk then .exited EXIT_CODE_MONITOR else .printedJSON
  else
    if !rpcOk then .exited EXIT_CODE_MONITOR else .printedText

/-- `cli_do_monitor_get_coordinator`: config (12), monitor init (12),
`monitor_get_coordinator` (16 on failure); when the returned host is the
empty string print a notice and exit 0; otherwise print JSON or text. -/
def cli_do_monitor_get_coordinator (configOk monitorInitOk rpcOk
    coordinatorHostEmpty outputJSON : Bool) : CmdOutcome :=
  if !configOk then .exited EXIT_CODE_BAD_CONFIG
  else if !monitorInitOk then .exited EXIT_CODE_BAD_CONFIG
  else if !rpcOk then .exited EXIT_CODE_MONITOR
  else if coordinatorHostEmpty then .exited EXIT_CODE_QUIT
  else if outputJSON then .printedJSON
  else .printedText

/-- `cli_do_monitor_node_active`: config (12), keeper init (12), then
`monitor_node_active`; on RPC failure the source exits with
`EXIT_CODE_PGSQL`; a subsequent `keeper_update_state` failure only logs;
then print JSON or text. -/
def cli_do_monitor_node_active (configOk keeperInitOk rpcOk
    outputJSON : Bool) : CmdOutcome :=
  if !configOk then .exited EXIT_CODE_BAD_CONFIG
  else if !keeperInitOk then .exited EXIT_CODE_BAD_CONFIG
  else if !rpcOk then .exited EXIT_CODE_PGSQL
  else if outputJSON then .printedJSON
  else .printedText

/-- `cli_do_monitor_version`: `monitor_init_from_pgsetup` (exit 11 on
failure), `monitor_ensure_extension_version` (exit 16 on failure); then,
when `outputJSON` is set, only a warning that JSON output is unsupported
is logged, and in all cases the version is printed as plain text. -/
def cli_do_monitor_version (monitorInitOk versionCheckOk
    outputJSON : Bool) : CmdOutcome :=
  if !monitorInitOk then .exited EXIT_CODE_BAD_ARGS
  else if !versionCheckOk then .exited EXIT_CODE_MONITOR
  else .printedText

/-! ## State notification parsing (`do monitor parse-notification`) -/

/-- Modelled from the spec: the `NodeState` roles of state.h are not under
src/; the role list and the extra tolerant `unknown` role come from the
spec's NodeRole enumeration and its notification-parsing tolerance rule. -/
inductive NodeState
  | no_state
  | init
  | single
  | wait_primary
  | primary
  | wait_standby
  | catchingup
  | secondary
  | prepare_promotion
  | stop_replication
  | demoted
  | demote_timeout
  | draining
  | report_lsn
  | maintenance
  | join_primary
  | apply_settings
  | fast_forward
  | dropped
  | unknown
  deriving DecidableEq

/-- Modelled from the spec: association table between the stable
lowercase wire identifiers and the roles. -/
def nodeStateTable : List (Str × NodeState) :=
  [("no_state".data, .no_state),
   ("init".data, .init),
   ("single".data, .single),
   ("wait_primary".data, .wait_primary),
   ("primary".data, .primary),
   ("wait_standby".data, .wait_standby),
   ("catchingup".data, .catchingup),
   ("secondary".data, .secondary),
   ("prepare_promotion".data, .prepare_promotion),
   ("stop_replication".data, .stop_replication),
   ("demoted".data, .demoted),
   ("demote_timeout".data, .demote_timeout),
   ("draining".data, .draining),
   ("report_lsn".data, .report_lsn),
   ("maintenance".data, .maintenance),
   ("join_primary".data, .join_primary),
   ("apply_settings".data, .apply_settings),
   ("fast_forward".data, .fast_forward),
   ("dropped".data, .dropped)]

/-- The known wire identifiers for roles. -/
def nodeStateStrings : List Str := nodeStateTable.map Prod.fst

/-- Modelled from the spec: `NodeStateFromString` of state.c is not under
src/; it maps a wire identifier to its role and, per the spec's tolerance
rule, any unrecognized identifier to `unknown`. -/
def NodeStateFromString (s : Str) : NodeState :=
  (nodeStateTable.lookup s).getD .unknown

/-- Modelled from the spec: `NodeStateToString` of state.c is not under
src/; it renders a role as its stable lowercase wire identifier, and the
tolerant `unknown` role as `unknown`. -/
def NodeStateToString : NodeState → Str
  | .no_state => "no_state".data
  | .init => "init".data
  | .single => "single".data
  | .wait_primary => "wait_primary".data
  | .primary => "primary".data
  | .wait_standby => "wait_standby".data
  | .catchingup => "catchingup".data
  | .secondary => "secondary".data
  | .prepare_promotion => "prepare_promotion".data
  | .stop_replication => "stop_replication".data
  | .demoted => "demoted".data
  | .demote_timeout => "demote_timeout".data
  | .draining => "draining".data
  | .report_lsn => "report_lsn".data
  | .maintenance => "maintenance".data
  | .join_primary => "join_primary".data
  | .apply_settings => "apply_settings".data
  | .fast_forward => "fast_forward".data
  | .dropped => "dropped".data
  | .unknown => "unknown".data

/-- Decimal digit parsing for the numeric notification fields. -/
def parseNatLoop : Nat → Str → Option Nat
  | acc, [] => some acc
  | acc, c :: rest =>
    if '0' ≤ c ∧ c ≤ '9' then
      parseNatLoop (acc * 10 + (c.toNat - '0'.toNat)) rest
    else none

/-- Parse a non-empty decimal numeral; `none` on any other input. -/
def parseNat : Str → Option Nat
  | [] => none
  | s => parseNatLoop 0 s

/-- The part of `s` after its first `.`, or `s` itself when it has none
(the notification grammar length-prefixes the formation and node names,
as in `7.default` or `9.localhost`). -/
def findDotSuffix : Str → Option Str
  | [] => none
  | c :: rest => if c = '.' then some rest else findDotSuffix rest

/-- Tolerant variant of `findDotSuffix`: whole string when no dot. -/
def dotSuffix (s : Str) : Str := (findDotSuffix s).getD s

/-- The `StateNotification` record filled by the notification parser. -/
structure StateNotification where
  nodeName : Str
  nodePort : Nat
  formationId : Str
  groupId : Nat
  nodeId : Nat
  reportedState : NodeState
  goalState : NodeState
  deriving DecidableEq

/-- The zero-initialized `StateNotification` of the C caller. -/
def defaultStateNotification : StateNotification :=
  { nodeName := [], nodePort := 0, formationId := [], groupId := 0,
    nodeId := 0, reportedState := .unknown, goalState := .unknown }

/-- Modelled from the spec: `parse_state_notification_message` of
parsing.c is not under src/. Per the spec's grammar a state-channel
payload is 8 colon-separated fields
`S:<reported_state>:<goal_state>:<formation>:<group_id>:<node_id>:<nodename>:<port>`
with the formation and node names length-prefixed by `<n>.`. The parser
returns a boolean and a record; role identifiers are parsed tolerantly
(unknown identifiers yield the `unknown` role, still a success), while a
wrong header, a wrong field count, or non-numeric numeric fields fail. -/
def parse_state_notification_message (message : Str) :
    Bool × StateNotification :=
  match message.splitOn ':' with
  | [hdr, rep, goal, fmt, grp, nid, nodename, port] =>
    if hdr = "S".data then
      match parseNat grp, parseNat nid, parseNat port with
      | some g, some n, some p =>
        (true,
         { nodeName := dotSuffix nodename, nodePort := p,
           formationId := dotSuffix fmt, groupId := g, nodeId := n,
           reportedState := NodeStateFromString rep,
           goalState := NodeStateFromString goal })
      | _, _, _ => (false, defaultStateNotification)
    else (false, defaultStateNotification)
  | _ => (false, defaultStateNotification)

/-- Outcome of `pg_autoctl do monitor parse-notification`: exited during
argument checking, or emitted the JSON record with fields nodename,
nodeport, formationid, reportedState, goalState. -/
inductive NotifyCmdOutcome
  | exited (code : Nat)
  | emitted (nodename : Str) (nodeport : Nat) (formationid : Str)
      (reportedState : Str) (goalState : Str)
  deriving DecidableEq

/-- `cli_do_monitor_parse_notification`: requires exactly one argument
(else usage and exit 11); parses the message; logs on success; and emits
the JSON record unconditionally, whatever the parse result was. -/
def cli_do_monitor_parse_notification (args : List Str) : NotifyCmdOutcome :=
  match args with
  | [message] =>
    let parsed := parse_state_notification_message message
    .emitted parsed.2.nodeName parsed.2.nodePort parsed.2.formationId
      (NodeStateToString parsed.2.reportedState)
      (NodeStateToString parsed.2.goalState)
  | _ => .exited EXIT_CODE_BAD_ARGS

/-! ## supervisor.h / supervisor.c : restart policies -/

/-- The `RestartPolicy` enum of supervisor.h. -/
inductive RestartPolicy
  | RP_PERMANENT
  | RP_TEMPORARY
  | RP_TRANSIENT
  deriving DecidableEq

/-- Modelled from the spec: supervisor.c is not under src/; the restart
decision follows the spec's restart policies (and the supervisor.h
comments): a permanent service is always restarted, a temporary service is
never restarted, and a transient service is restarted only on abnormal
exit, i.e. a non-zero exit code or termination by a signal. -/
def supervisor_will_restart (policy : RestartPolicy) (exitCode : Nat)
    (signaled : Bool) : Bool :=
  match policy with
  | .RP_PERMANENT => true
  | .RP_TEMPORARY => false
  | .RP_TRANSIENT => exitCode != 0 || signaled

/-! ## Helper lemmas on prefixes, indexing and `strstr` -/

theorem isPrefixOf_append_self : ∀ (p t : Str), p.isPrefixOf (p ++ t) = true
  | [], _ => by simp [List.isPrefixOf]
  | c :: p', t => by
    simp [List.cons_append, List.isPrefixOf, isPrefixOf_append_self p' t]

theorem isPrefixOf_append_left : ∀ (p s u : Str),
    p.isPrefixOf (s ++ u) = true → p.length ≤ s.length → p.isPrefixOf s = true
  | [], _, _, _, _ => by simp [List.isPrefixOf]
  | c :: p', [], u, _, hlen => by simp at hlen
  | c :: p', b :: s', u, h, hlen => by
    simp only [List.cons_append, List.isPrefixOf, Bool.and_eq_true,
      beq_iff_eq] at h ⊢
    exact ⟨h.1, isPrefixOf_append_left p' s' u h.2 (by simpa using hlen)⟩

theorem isPrefixOf_append_swap : ∀ (s p u : Str),
    p.isPrefixOf (s ++ u) = true → s.length ≤ p.length → s.isPrefixOf p = true
  | [], _, _, _, _ => by simp [List.isPrefixOf]
  | b :: s', [], u, _, hlen => by simp at hlen
  | b :: s', a :: p', u, h, hlen => by
    simp only [List.cons_append, List.isPrefixOf, Bool.and_eq_true,
      beq_iff_eq] at h ⊢
    exact ⟨h.1.symm, isPrefixOf_append_swap s' p' u h.2 (by simpa using hlen)⟩

theorem mem_of_isPrefixOf_mem : ∀ (s p : Str) (c : Char),
    s.isPrefixOf p = true → c ∈ s → c ∈ p
  | [], _, c, _, hc => absurd hc (by simp)
  | a :: s', [], c, h, _ => by simp [List.isPrefixOf] at h
  | a :: s', b :: p', c, h, hc => by
    simp only [List.isPrefixOf, Bool.and_eq_true, beq_iff_eq] at h
    rcases List.mem_cons.mp hc with rfl | hc'
    · simp [h.1]
    · exact List.mem_cons_of_mem _ (mem_of_isPrefixOf_mem s' p' c h.2 hc')

theorem getD_append_lt : ∀ (s u : Str) (n : Nat) (d : Char),
    n < s.length → (s ++ u).getD n d = s.getD n d
  | [], _, n, _, h => absurd h (by simp)
  | a :: s', u, 0, d, _ => rfl
  | a :: s', u, n + 1, d, h => by
    simp only [List.cons_append, List.getD_cons_succ]
    exact getD_append_lt s' u n d (by simpa using h)

theorem getD_mem : ∀ (s : Str) (n : Nat) (d : Char), n < s.length → s.getD n d ∈ s
  | [], n, _, h => absurd h (by simp)
  | a :: s', 0, d, _ => by simp
  | a :: s', n + 1, d, h => by
    simp only [List.getD_cons_succ]
    exact List.mem_cons_of_mem _ (getD_mem s' n d (by simpa using h))

theorem strstr_of_isPrefixOf (s pat : Str) (h : pat.isPrefixOf s = true) :
    strstr s pat = some 0 := by
  rw [strstr.eq_def]
  simp [h]

theorem strstr_cons_of_not (c : Char) (t pat : Str)
    (h : pat.isPrefixOf (c :: t) = false) :
    strstr (c :: t) pat = (strstr t pat).map (· + 1) := by
  rw [strstr.eq_def]
  simp [h]

theorem strstr_cons_none (c : Char) (t pat : Str)
    (h : strstr (c :: t) pat = none) :
    pat.isPrefixOf (c :: t) = false ∧ strstr t pat = none := by
  cases hpre : pat.isPrefixOf (c :: t) with
  | true => rw [strstr_of_isPrefixOf _ _ hpre] at h; exact absurd h (by simp)
  | false =>
    rw [strstr_cons_of_not _ _ _ hpre] at h
    exact ⟨rfl, Option.map_eq_none'.mp h⟩

theorem strstr_append_rule : ∀ (s line rest : Str),
    strstr s line = none → '\n' ∉ line →
    (s = [] ∨ s.getD (s.length - 1) ' ' = '\n') →
    strstr (s ++ line ++ rest) line = some s.length
  | [], line, rest, _, _, _ => by
    simpa using strstr_of_isPrefixOf (line ++ rest) line
      (isPrefixOf_append_self line rest)
  | c :: tail, line, rest, hnone, hnl, hend => by
    obtain ⟨hpre, htail⟩ := strstr_cons_none c tail line hnone
    have hend_tail : tail = [] ∨ tail.getD (tail.length - 1) ' ' = '\n' := by
      cases tail with
      | nil => exact Or.inl rfl
      | cons d t' =>
        rcases hend with h | h
        · exact absurd h (by simp)
        · exact Or.inr (by simpa using h)
    have hpre2 : line.isPrefixOf ((c :: tail) ++ (line ++ rest)) = false := by
      cases hp : line.isPrefixOf ((c :: tail) ++ (line ++ rest)) with
      | false => rfl
      | true =>
        exfalso
        rcases Nat.le_total line.length (c :: tail).length with hle | hle
        · exact absurd (isPrefixOf_append_left line (c :: tail) (line ++ rest)
            hp hle) (by simp [hpre])
        · have hsp := isPrefixOf_append_swap (c :: tail) line (line ++ rest)
            hp hle
          have hlast : (c :: tail).getD ((c :: tail).length - 1) ' ' = '\n' := by
            rcases hend with h | h
            · exact absurd h (by simp)
            · exact h
          have hmem : '\n' ∈ (c :: tail) := by
            rw [← hlast]
            exact getD_mem (c :: tail) ((c :: tail).length - 1) ' ' (by simp)
          exact hnl (mem_of_isPrefixOf_mem (c :: tail) line '\n' hsp hmem)
    have hstep := strstr_cons_of_not c (tail ++ (line ++ rest)) line
      (by simpa using hpre2)
    have hrec := strstr_append_rule tail line rest htail hnl hend_tail
    simp only [List.cons_append, List.append_assoc] at hstep ⊢
    rw [hstep]
    rw [List.append_assoc] at hrec
    rw [hrec]
    simp [List.length_cons]

theorem foundAtLineStart_append (s line rest : Str)
    (hnone : strstr s line = none) (hnl : '\n' ∉ line)
    (hend : s = [] ∨ s.getD (s.length - 1) ' ' = '\n') :
    foundAtLineStart (s ++ line ++ rest) line = true := by
  unfold foundAtLineStart
  rw [strstr_append_rule s line rest hnone hnl hend]
  cases s with
  | nil => rfl
  | cons c t =>
    simp only [List.length_cons]
    have hlt : t.length < (c :: t).length := by simp
    rw [getD_append_lt ((c :: t) ++ line) rest t.length ' ' (by simp; omega),
      getD_append_lt (c :: t) line t.length ' ' hlt]
    rcases hend with h | h
    · exact absurd h (by simp)
    · simp only [List.length_cons, Nat.add_sub_cancel] at h
      rw [h]
      rfl

/-! ## Claim C1 -/

/-- C1 counterexample: on the one-character HBA file `x` (no trailing
newline), a first successful `pghba_ensure_host_rule_exists` appends the
rule, but a second call with the same arguments appends it again, because
the rule's first occurrence is not at the start of a line: the file
contents after the second call differ from those after the first call. -/
theorem pghba_ensure_host_rule_exists_not_idempotent :
    (pghba_ensure_host_rule_exists
        (pghba_ensure_host_rule_exists "x".data false .HBA_DATABASE_ALL []
          none .IPTYPE_NONE "h".data "t".data).contents
        false .HBA_DATABASE_ALL [] none .IPTYPE_NONE "h".data
        "t".data).contents
      ≠ (pghba_ensure_host_rule_exists "x".data false .HBA_DATABASE_ALL []
          none .IPTYPE_NONE "h".data "t".data).contents := by
  decide

/-- C1 (amended): if a first call to `pghba_ensure_host_rule_exists`
succeeds, then a second call with the same arguments is a no-op — it
returns true and leaves the file contents byte-for-byte unchanged —
provided that the initial contents are empty or end with a newline, that
the rule line contains no newline character, and that the rule string
either does not occur in the initial contents or its first occurrence is
at the start of a line. -/
theorem pghba_ensure_host_rule_exists_idempotent (contents : Str)
    (ssl : Bool) (databaseType : HBADatabaseType) (database : Str)
    (username : Option Str) (ipt : IPType) (host : Str)
    (authenticationScheme : Str)
    (hnl : '\n' ∉ pghba_append_rule_to_buffer ssl databaseType database
      username ipt host authenticationScheme)
    (hend : contents = [] ∨ contents.getD (contents.length - 1) ' ' = '\n')
    (hocc : foundAtLineStart contents (pghba_append_rule_to_buffer ssl
        databaseType database username ipt host authenticationScheme) = true
      ∨ strstr contents (pghba_append_rule_to_buffer ssl databaseType
        database username ipt host authenticationScheme) = none) :
    (pghba_ensure_host_rule_exists
        (pghba_ensure_host_rule_exists contents ssl databaseType database
          username ipt host authenticationScheme).contents
        ssl databaseType database username ipt host
        authenticationScheme).contents
      = (pghba_ensure_host_rule_exists contents ssl databaseType database
          username ipt host authenticationScheme).contents
    ∧ (pghba_ensure_host_rule_exists
        (pghba_ensure_host_rule_exists contents ssl databaseType database
          username ipt host authenticationScheme).contents
        ssl databaseType database username ipt host
        authenticationScheme).ok = true := by
  set L := pghba_append_rule_to_buffer ssl databaseType database username
    ipt host authenticationScheme with hL
  by_cases hf : foundAtLineStart contents L = true
  · simp [pghba_ensure_host_rule_exists, ← hL, hf]
  · have hnone : strstr contents L = none := by
      rcases hocc with h | h
      · exact absurd h hf
      · exact h
    by_cases hskip : SKIP_HBA authenticationScheme = true
    · simp [pghba_ensure_host_rule_exists, ← hL, hf, hskip]
    · have hfound2 : foundAtLineStart
          (contents ++ L ++ (HBA_LINE_COMMENT ++ ['\n'])) L = true := by
        exact foundAtLineStart_append contents L
          (HBA_LINE_COMMENT ++ ['\n']) hnone hnl hend
      have hassoc : contents ++ L ++ HBA_LINE_COMMENT ++ ['\n']
          = contents ++ L ++ (HBA_LINE_COMMENT ++ ['\n']) := by
        simp [List.append_assoc]
      simp only [pghba_ensure_host_rule_exists, ← hL, hf, hskip,
        if_false, Bool.false_eq_true, if_neg, hassoc]
      simp only [List.append_assoc] at hfound2
      simp [hf, hskip, hfound2]

/-- Witness for C1 (amended): on the empty HBA file, two identical calls
leave the same contents. -/
theorem pghba_ensure_host_rule_exists_idempotent_witness :
    (pghba_ensure_host_rule_exists
        (pghba_ensure_host_rule_exists [] false .HBA_DATABASE_ALL [] none
          .IPTYPE_NONE "h".data "t".data).contents
        false .HBA_DATABASE_ALL [] none .IPTYPE_NONE "h".data
        "t".data).contents
      = (pghba_ensure_host_rule_exists [] false .HBA_DATABASE_ALL [] none
          .IPTYPE_NONE "h".data "t".data).contents :=
  (pghba_ensure_host_rule_exists_idempotent [] false .HBA_DATABASE_ALL []
    none .IPTYPE_NONE "h".data "t".data (by decide) (Or.inl rfl)
    (Or.inr (by decide))).1

/-! ## Claim C2 -/

/-- C2: the emitted address field is `host/32` for an IPv4 host,
`host/128` for an IPv6 host, and the bare host string otherwise; the rule
line begins with `hostssl ` when ssl is set and `host ` otherwise; and
whenever `pghba_ensure_host_rule_exists` appends a line to the HBA file,
that line is the rule suffixed with ` # Auto-generated by pg_auto_failover`
(and a newline). -/
theorem hba_rule_address_type_and_comment (ssl : Bool)
    (databaseType : HBADatabaseType) (database : Str) (username : Option Str)
    (ipt : IPType) (host : Str) (authenticationScheme : Str)
    (contents : Str) :
    (append_hostname_or_cidr .IPTYPE_V4 host = host ++ "/32".data
      ∧ append_hostname_or_cidr .IPTYPE_V6 host = host ++ "/128".data
      ∧ append_hostname_or_cidr .IPTYPE_NONE host = host)
    ∧ (∃ t, pghba_append_rule_to_buffer ssl databaseType database username
        ipt host authenticationScheme
          = (if ssl then "hostssl ".data else "host ".data) ++ t)
    ∧ ((pghba_ensure_host_rule_exists contents ssl databaseType database
          username ipt host authenticationScheme).contents = contents
      ∨ (pghba_ensure_host_rule_exists contents ssl databaseType database
          username ipt host authenticationScheme).contents
        = contents
          ++ pghba_append_rule_to_buffer ssl databaseType database username
            ipt host authenticationScheme
          ++ HBA_LINE_COMMENT ++ ['\n']) := by
  refine ⟨⟨rfl, rfl, rfl⟩, ⟨_, rfl⟩, ?_⟩
  by_cases hf : foundAtLineStart contents (pghba_append_rule_to_buffer ssl
      databaseType database username ipt host authenticationScheme) = true
  · left
    simp [pghba_ensure_host_rule_exists, hf]
  · by_cases hskip : SKIP_HBA authenticationScheme = true
    · left
      simp [pghba_ensure_host_rule_exists, hf, hskip]
    · right
      simp [pghba_ensure_host_rule_exists, hf, hskip]

/-- Witness for C2 at concrete arguments. -/
theorem hba_rule_address_type_and_comment_witness :
    append_hostname_or_cidr .IPTYPE_V4 "1.2.3.4".data
      = "1.2.3.4".data ++ "/32".data :=
  (hba_rule_address_type_and_comment true .HBA_DATABASE_ALL [] none
    .IPTYPE_V4 "1.2.3.4".data "trust".data []).1.1

/-! ## Claim C9 -/

/-- C9: `escape_hba_string` produces exactly a double-quote, the input
with every double-quote doubled, and a closing double-quote; the returned
count of characters written equals the input length plus the number of
double-quote characters plus 2. -/
theorem escape_hba_string_spec (s : Str) :
    escape_hba_string s
      = '"' :: (s.flatMap fun c => if c = '"' then ['"', c] else [c]) ++ ['"']
    ∧ (escape_hba_string s).length = s.length + s.count '"' + 2 := by
  have hloop : ∀ t : Str, escape_hba_string_loop t
      = t.flatMap fun c => if c = '"' then ['"', c] else [c] := by
    intro t
    induction t with
    | nil => rfl
    | cons c rest ih =>
      by_cases h : c = '"' <;> simp [escape_hba_string_loop, h, ih]
  have hlen : ∀ t : Str,
      (escape_hba_string_loop t).length = t.length + t.count '"' := by
    intro t
    induction t with
    | nil => rfl
    | cons c rest ih =>
      by_cases h : c = '"' <;>
        simp [escape_hba_string_loop, h, ih, List.count_cons] <;> omega
  constructor
  · simp [escape_hba_string, hloop s]
  · simp [escape_hba_string, hlen s]

/-! ## Claim C10 -/

/-- C10: with the `skip` authentication scheme (`--skip-pg-hba`),
`pghba_ensure_host_rule_exists` returns true, never writes the file, and
leaves the contents byte-for-byte unchanged, whether or not the rule is
already present. -/
theorem pghba_ensure_host_rule_exists_skip (contents : Str) (ssl : Bool)
    (databaseType : HBADatabaseType) (database : Str) (username : Option Str)
    (ipt : IPType) (host : Str) :
    (pghba_ensure_host_rule_exists contents ssl databaseType database
      username ipt host "skip".data).contents = contents
    ∧ (pghba_ensure_host_rule_exists contents ssl databaseType database
      username ipt host "skip".data).ok = true
    ∧ (pghba_ensure_host_rule_exists contents ssl databaseType database
      username ipt host "skip".data).wrote = false := by
  by_cases hf : foundAtLineStart contents (pghba_append_rule_to_buffer ssl
      databaseType database username ipt host "skip".data) = true
  · simp [pghba_ensure_host_rule_exists, hf]
  · simp [pghba_ensure_host_rule_exists, hf, SKIP_HBA]

/-! ## Claim C3 -/

theorem hba_rule_segment_step (contents authenticationScheme acc
    hbaLine : Str) :
    (if foundAtLineStart contents hbaLine then acc
     else if SKIP_HBA authenticationScheme then acc
     else acc ++ hbaLine ++ HBA_LINE_COMMENT ++ ['\n'])
      = acc ++ hba_rule_segment contents authenticationScheme hbaLine := by
  unfold hba_rule_segment
  by_cases hf : foundAtLineStart contents hbaLine = true
  · simp [hf]
  · by_cases hskip : SKIP_HBA authenticationScheme = true
    · simp [hf, hskip]
    · simp [hf, hskip]

theorem rules_exist_foldl (contents : Str) (ssl : Bool) (database : Str)
    (username : Option Str) (authenticationScheme : Str) :
    ∀ (nodes : List (NodeAddress × IPType)) (acc : Str),
    nodes.foldl
      (fun newHbaContents node =>
        let hbaLineReplication := pghba_append_rule_to_buffer ssl
          .HBA_DATABASE_REPLICATION [] username node.2 node.1.host
          authenticationScheme
        let hbaLineDatabase := pghba_append_rule_to_buffer ssl
          .HBA_DATABASE_DBNAME database username node.2 node.1.host
          authenticationScheme
        [hbaLineReplication, hbaLineDatabase].foldl
          (fun acc2 hbaLine =>
            if foundAtLineStart contents hbaLine then acc2
            else if SKIP_HBA authenticationScheme then acc2
            else acc2 ++ hbaLine ++ HBA_LINE_COMMENT ++ ['\n'])
          newHbaContents)
      acc
    = acc ++ (nodes.map (fun node =>
        hba_rule_segment contents authenticationScheme
          (pghba_append_rule_to_buffer ssl .HBA_DATABASE_REPLICATION []
            username node.2 node.1.host authenticationScheme)
        ++ hba_rule_segment contents authenticationScheme
          (pghba_append_rule_to_buffer ssl .HBA_DATABASE_DBNAME database
            username node.2 node.1.host authenticationScheme))).flatten
  | [], acc => by simp
  | node :: rest, acc => by
    rw [List.foldl_cons,
      rules_exist_foldl contents ssl database username authenticationScheme
        rest _]
    simp only [List.foldl_cons, List.foldl_nil, hba_rule_segment_step,
      List.map_cons, List.flatten_cons]
    simp [List.append_assoc]

/-- C3: `pghba_ensure_host_rules_exist` appends to the current HBA file,
for each node of the array in order, exactly two rules built for that
node's host with the given username and authentication scheme — one whose
database field is `replication` and one whose database field is the quoted
database name — each suffixed with the auto-generated comment, and a rule
whose first occurrence in the original file starts a line is not appended
a second time (nor is anything appended under `--skip-pg-hba`). -/
theorem pghba_ensure_host_rules_exist_spec (contents : Str)
    (nodes : List (NodeAddress × IPType)) (ssl : Bool) (database : Str)
    (username : Option Str) (authenticationScheme : Str) :
    pghba_ensure_host_rules_exist contents nodes ssl database username
        authenticationScheme
      = contents ++ (nodes.map (fun node =>
          hba_rule_segment contents authenticationScheme
            (pghba_append_rule_to_buffer ssl .HBA_DATABASE_REPLICATION []
              username node.2 node.1.host authenticationScheme)
          ++ hba_rule_segment contents authenticationScheme
            (pghba_append_rule_to_buffer ssl .HBA_DATABASE_DBNAME database
              username node.2 node.1.host authenticationScheme))).flatten
    ∧ append_database_field .HBA_DATABASE_REPLICATION [] = "replication".data
    ∧ append_database_field .HBA_DATABASE_DBNAME database
        = escape_hba_string database := by
  refine ⟨?_, rfl, rfl⟩
  exact rules_exist_foldl contents ssl database username
    authenticationScheme nodes contents

/-! ## Claim C4 -/

/-- C4: `pg_autoctl stop` with no mode flag sends SIGTERM (smart
shutdown) to the PID read from the PID file; with `--fast` it sends
SIGINT; with `--immediate` it sends SIGQUIT; and passing both `--fast`
and `--immediate` (in either order) exits with code 11 (bad args) without
sending any signal. -/
theorem cli_service_stop_modes (pid : Int) (anyPid : Option Int) :
    cli_service_stop [] (some pid) = .signaled pid .SIGTERM
    ∧ cli_service_stop [.fast] (some pid) = .signaled pid .SIGINT
    ∧ cli_service_stop [.immediate] (some pid) = .signaled pid .SIGQUIT
    ∧ cli_service_stop [.fast, .immediate] anyPid
        = .exited EXIT_CODE_BAD_ARGS
    ∧ cli_service_stop [.immediate, .fast] anyPid
        = .exited EXIT_CODE_BAD_ARGS := by
  refine ⟨rfl, rfl, rfl, ?_, ?_⟩ <;>
    simp [cli_service_stop, cli_getopt_pgdata_and_mode,
      cli_getopt_mode_loop]

/-! ## Claim C5 -/

/-- C5 counterexample: in `cli_do_monitor_node_active`, a failure of the
`monitor_node_active` RPC makes the process exit with `EXIT_CODE_PGSQL`
(15), not with the monitor-failure code 16. -/
theorem cli_do_monitor_node_active_exits_pgsql :
    cli_do_monitor_node_active true true false false
        = .exited EXIT_CODE_PGSQL
    ∧ EXIT_CODE_PGSQL ≠ EXIT_CODE_MONITOR := by
  exact ⟨rfl, by decide⟩

/-- C5 (amended): when the monitor RPC fails, the `do monitor get`
commands (primary, others, coordinator) exit with code 16 (monitor
failure), but `do monitor node active` exits with code 15 (pgsql
failure). -/
theorem cli_do_monitor_rpc_failure_codes (outputJSON hostEmpty : Bool) :
    cli_do_monitor_get_primary_node true true false outputJSON
        = .exited EXIT_CODE_MONITOR
    ∧ cli_do_monitor_get_other_nodes true true false outputJSON
        = .exited EXIT_CODE_MONITOR
    ∧ cli_do_monitor_get_coordinator true true false hostEmpty outputJSON
        = .exited EXIT_CODE_MONITOR
    ∧ cli_do_monitor_node_active true true false outputJSON
        = .exited EXIT_CODE_PGSQL := by
  cases outputJSON <;> cases hostEmpty <;> exact ⟨rfl, rfl, rfl, rfl⟩

/-! ## Claim C6 -/

theorem lookup_eq_none_of_not_mem_keys (tbl : List (Str × NodeState))
    (s : Str) (h : s ∉ tbl.map Prod.fst) : tbl.lookup s = none := by
  induction tbl with
  | nil => rfl
  | cons p rest ih =>
    obtain ⟨a, b⟩ := p
    simp only [List.map_cons, List.mem_cons] at h
    push_neg at h
    have hba : (s == a) = false := beq_eq_false_iff_ne.mpr h.1
    simp [List.lookup, hba, ih h.2]

/-- C6: notification parsing never crashes and is tolerant — the parser
is a total function returning a boolean and a record, any unrecognized
role identifier is parsed as the `unknown` role, and for every input
message the `do monitor parse-notification` command emits the structured
record (nodename, nodeport, formationid, reportedState, goalState),
whatever the parse outcome was. -/
theorem parse_notification_tolerant :
    (∀ message : Str, ∃ nodename nodeport formationid reported goal,
      cli_do_monitor_parse_notification [message]
        = .emitted nodename nodeport formationid reported goal)
    ∧ (∀ s : Str, s ∉ nodeStateStrings → NodeStateFromString s = .unknown) := by
  constructor
  · intro message
    exact ⟨_, _, _, _, _, rfl⟩
  · intro s hs
    have : nodeStateTable.lookup s = none :=
      lookup_eq_none_of_not_mem_keys nodeStateTable s hs
    simp [NodeStateFromString, this]

/-- Witness for C6: the command emits a record on a malformed payload and
an unrecognized role identifier parses as `unknown`. -/
theorem parse_notification_tolerant_witness :
    NodeStateFromString "bogus".data = NodeState.unknown :=
  parse_notification_tolerant.2 "bogus".data (by decide)

/-! ## Claim C7 -/

/-- C7 counterexample: with JSON output mode enabled, the `do monitor
version` read command does not print JSON — it warns that JSON output is
unsupported and prints the version as plain text. -/
theorem cli_do_monitor_version_no_json :
    cli_do_monitor_version true true true ≠ CmdOutcome.printedJSON
    ∧ cli_do_monitor_version true true true = CmdOutcome.printedText := by
  decide

/-- C7 (amended): with JSON output mode enabled, the successful `do
monitor` read commands print JSON — except `do monitor version`, which
logs a warning that JSON output is unsupported and prints plain text. -/
theorem read_commands_json_output :
    cli_do_monitor_get_primary_node true true true true
        = CmdOutcome.printedJSON
    ∧ cli_do_monitor_get_other_nodes true true true true
        = CmdOutcome.printedJSON
    ∧ cli_do_monitor_get_coordinator true true true false true
        = CmdOutcome.printedJSON
    ∧ cli_do_monitor_node_active true true true true
        = CmdOutcome.printedJSON
    ∧ cli_do_monitor_version true true true = CmdOutcome.printedText := by
  decide

/-! ## Claim C8 -/

/-- C8: after a supervised service exits, a transient service is
restarted if and only if the exit was abnormal — a non-zero exit code or
termination by a signal — while a permanent service is restarted on any
exit and a temporary service never is. -/
theorem supervisor_restart_policy (exitCode : Nat) (signaled : Bool) :
    (supervisor_will_restart .RP_TRANSIENT exitCode signaled = true
      ↔ (exitCode ≠ 0 ∨ signaled = true))
    ∧ supervisor_will_restart .RP_PERMANENT exitCode signaled = true
    ∧ supervisor_will_restart .RP_TEMPORARY exitCode signaled = false := by
  refine ⟨?_, rfl, rfl⟩
  simp [supervisor_will_restart]
